import Mathlib

/-!
Verification of the mcp-aws infrastructure-management core.

The development shallowly embeds the Python sources:
* `mcp_client1.py` — `NaturalLanguageParser.parse_command` (the intent resolver);
* `terraform_generator.py` — configuration composition for EC2/S3/RDS and the
  engine → port / engine → version tables;
* `prompts.py` — the literal configuration templates;
* `mcp_fastapi_server.py` — `run_terraform_commands`, `delete_resource`,
  `get_terraform_state`;
* the configuration mutator (`removeResourceBlock`), whose implementation is not
  in the sources at hand, is modelled from its specification.

Strings are embedded as `List Char`; Python `re` searches used by the parser are
embedded as bespoke scanners that follow each concrete pattern's semantics.
External effects (processes, the filesystem) are embedded as explicit inputs:
a completed process is a `ProcResult` (exit status plus captured output), a
possibly-timed-out invocation is a `StageRun`, and directory existence is a
`Bool` argument.
-/

set_option maxRecDepth 8000

namespace MCPAws

/-- Character data of a string literal; all text is handled as `List Char`. -/
def str (s : String) : List Char := s.data

/-- `leadsWith pat s` holds when `pat` is an initial segment of `s`. -/
def leadsWith : List Char → List Char → Bool
  | [], _ => true
  | _ :: _, [] => false
  | p :: ps, c :: cs => p == c && leadsWith ps cs

/-- `hasSub pat s` holds when `pat` occurs contiguously inside `s`
(Python `pat in s`). -/
def hasSub (pat : List Char) : List Char → Bool
  | [] => leadsWith pat []
  | c :: cs => leadsWith pat (c :: cs) || hasSub pat cs

/-- Word character for the `\b` boundaries of the parser's patterns
(ASCII letters, digits and underscore; the parser lower-cases its input first). -/
def isWordChar (c : Char) : Bool := c.isAlphanum || c == '_'

/-- `Char.toLower`-based embedding of `str.lower()` (the parser's inputs and the
table keys are ASCII). -/
def lowerStr (s : List Char) : List Char := s.map Char.toLower

/-- Python `str.strip()`: drop leading and trailing whitespace. -/
def stripLn (l : List Char) : List Char :=
  ((l.dropWhile Char.isWhitespace).reverse.dropWhile Char.isWhitespace).reverse

/-! ### Scanners for the parser's regular expressions (`mcp_client1.py`)

Each Python pattern is embedded as a dedicated scanner.  A `.*` gap may not
consume a newline; a `\b` boundary is tracked by threading whether the previous
character was a word character. -/

/-- First occurrence of `pat` reachable without crossing a newline (the `.*`
gap of the patterns); returns the remainder after the occurrence. -/
def findGap (pat : List Char) : List Char → Option (List Char)
  | [] => if leadsWith pat [] then some [] else none
  | c :: cs =>
    if leadsWith pat (c :: cs) then some (List.drop pat.length (c :: cs))
    else if c == '\n' then none
    else findGap pat cs

/-- Does a `\b` boundary follow an occurrence of `pat` at the head of `s`?
(The patterns' final literals end in a word character, so the boundary holds
exactly when the next character is absent or not a word character.) -/
def bdryAfter (pat s : List Char) : Bool :=
  match List.drop pat.length s with
  | [] => true
  | d :: _ => !isWordChar d

/-- Some occurrence of `pat` followed by a `\b` boundary, reachable without
crossing a newline. -/
def findGapBdry (pat : List Char) : List Char → Bool
  | [] => false
  | c :: cs =>
    (leadsWith pat (c :: cs) && bdryAfter pat (c :: cs))
      || (!(c == '\n') && findGapBdry pat cs)

/-- `\b(kw₁|…|kwₙ).*mid.*fin\b` searched anywhere in the text (the EC2/S3/RDS
creation patterns).  The boolean tracks whether the current position sits at a
word boundary. -/
def scanKw2 (kws : List (List Char)) (mid fin : List Char) : Bool → List Char → Bool
  | _, [] => false
  | bdry, c :: cs =>
    (bdry && kws.any fun k =>
      leadsWith k (c :: cs) &&
        match findGap mid (List.drop k.length (c :: cs)) with
        | none => false
        | some r2 => findGapBdry fin r2)
      || scanKw2 kws mid fin (!isWordChar c) cs

/-- `\b(kw₁|…|kwₙ).*fin\b` searched anywhere (the code-generation pattern). -/
def scanKw1 (kws : List (List Char)) (fin : List Char) : Bool → List Char → Bool
  | _, [] => false
  | bdry, c :: cs =>
    (bdry && kws.any fun k =>
      leadsWith k (c :: cs) && findGapBdry fin (List.drop k.length (c :: cs)))
      || scanKw1 kws fin (!isWordChar c) cs

/-- `\b(kw₁|…|kwₙ)\b` searched anywhere, returning the alternative matched
first (alternatives tried left to right at each position, as `re` does). -/
def scanWordCapture (kws : List (List Char)) : Bool → List Char → Option (List Char)
  | _, [] => none
  | bdry, c :: cs =>
    (if bdry then kws.firstM fun k =>
        if leadsWith k (c :: cs) && bdryAfter k (c :: cs) then some k else none
      else none).orElse
      fun _ => scanWordCapture kws (!isWordChar c) cs

/-- `\b(kw₁|…|kwₙ)\b` searched anywhere (delete / deploy / state patterns). -/
def scanWordAny (kws : List (List Char)) (s : List Char) : Bool :=
  (scanWordCapture kws true s).isSome

/-- Leftmost-position search: try the position matcher `f` at every suffix that
sits at a `\b` boundary, left to right. -/
def scanFirst (f : List Char → Option (List Char)) : Bool → List Char → Option (List Char)
  | _, [] => none
  | bdry, c :: cs =>
    (if bdry then f (c :: cs) else none).orElse
      fun _ => scanFirst f (!isWordChar c) cs

/-- Quote accepted by the `["\']?` pieces of the parser's patterns. -/
def isQuoteChar (c : Char) : Bool := c == '"' || c == Char.ofNat 39

/-- Group class `[a-zA-Z0-9\-_]` (name / database captures). -/
def isNameGrp (c : Char) : Bool := c.isAlphanum || c == '-' || c == '_'

/-- Group class `[a-zA-Z0-9\-._]` (bucket captures). -/
def isBucketGrp (c : Char) : Bool := c.isAlphanum || c == '-' || c == '.' || c == '_'

/-- Is the first character a word character? -/
def headIsWord : List Char → Bool
  | [] => false
  | d :: _ => isWordChar d

/-- Embedding of the `[d]?\s+["\']?(grp+)["\']?\b` tail shared by the
`name[d]?`, `bucket` and `database` capture patterns, applied to the text after
the keyword.  The greedy group run is kept whole when a closing quote followed
by a word character satisfies the final boundary; otherwise backtracking strips
trailing non-word group characters until the boundary holds. -/
def matchArgTail (optD : Bool) (grp : Char → Bool) (r0 : List Char) : Option (List Char) :=
  let r1 := if optD then (match r0 with | 'd' :: t => t | _ => r0) else r0
  let ws := r1.takeWhile Char.isWhitespace
  if ws.isEmpty then none
  else
    let r2 := r1.drop ws.length
    let r3 := if headQuote r2 then r2.drop 1 else r2
    let run := r3.takeWhile grp
    if run.isEmpty then none
    else
      let rest := r3.drop run.length
      if headQuote rest && headIsWord (rest.drop 1) then some run
      else
        let run2 := (run.reverse.dropWhile fun c => !isWordChar c).reverse
        if run2.isEmpty then none else some run2
where
  headQuote : List Char → Bool
    | [] => false
    | d :: _ => isQuoteChar d

/-- `\bname[d]?\s+["\']?([a-zA-Z0-9\-_]+)["\']?\b`. -/
def nameMatch (s : List Char) : Option (List Char) :=
  scanFirst
    (fun t => if leadsWith (str "name") t then matchArgTail true isNameGrp (List.drop 4 t) else none)
    true s

/-- `\bbucket\s+["\']?([a-zA-Z0-9\-._]+)["\']?\b`. -/
def bucketMatch (s : List Char) : Option (List Char) :=
  scanFirst
    (fun t => if leadsWith (str "bucket") t then matchArgTail false isBucketGrp (List.drop 6 t) else none)
    true s

/-- `\bdatabase\s+["\']?([a-zA-Z0-9\-_]+)["\']?\b`. -/
def dbMatch (s : List Char) : Option (List Char) :=
  scanFirst
    (fun t => if leadsWith (str "database") t then matchArgTail false isNameGrp (List.drop 8 t) else none)
    true s

/-- Position matcher for `t[0-9]\.[a-z]+` with its trailing boundary. -/
def matchTAt : List Char → Option (List Char)
  | 't' :: d :: '.' :: rest =>
    if d.isDigit then
      let run := rest.takeWhile fun c => 'a' ≤ c && c ≤ 'z'
      if run.isEmpty then none
      else
        match rest.drop run.length with
        | [] => some ('t' :: d :: '.' :: run)
        | e :: _ => if isWordChar e then none else some ('t' :: d :: '.' :: run)
    else none
  | _ => none

/-- `\b(t[0-9]\.[a-z]+)\b`. -/
def instanceTypeMatch (s : List Char) : Option (List Char) :=
  scanFirst matchTAt true s

/-- Position matcher for one region alternative `pre[a-z]+-[0-9]` with its
trailing boundary (`pre` one of `us-`, `eu-`, `ap-`). -/
def matchRegionPre (pre : List Char) (s : List Char) : Option (List Char) :=
  if leadsWith pre s then
    let r := s.drop pre.length
    let run := r.takeWhile fun c => 'a' ≤ c && c ≤ 'z'
    if run.isEmpty then none
    else
      match r.drop run.length with
      | '-' :: d :: rest2 =>
        if d.isDigit && !headIsWord rest2 then some (pre ++ run ++ ['-', d]) else none
      | _ => none
  else none

/-- `\b(us-[a-z]+-[0-9]|eu-[a-z]+-[0-9]|ap-[a-z]+-[0-9])\b`. -/
def regionMatch (s : List Char) : Option (List Char) :=
  scanFirst
    (fun t =>
      ((matchRegionPre (str "us-") t).orElse fun _ => matchRegionPre (str "eu-") t).orElse
        fun _ => matchRegionPre (str "ap-") t)
    true s

/-- Position matcher for `i-[a-zA-Z0-9]+` with its trailing boundary. -/
def matchIdAt : List Char → Option (List Char)
  | 'i' :: '-' :: rest =>
    let run := rest.takeWhile Char.isAlphanum
    if run.isEmpty then none
    else
      match rest.drop run.length with
      | [] => some ('i' :: '-' :: run)
      | e :: _ => if isWordChar e then none else some ('i' :: '-' :: run)
  | _ => none

/-- `\b(i-[a-zA-Z0-9]+)\b`. -/
def idMatch (s : List Char) : Option (List Char) :=
  scanFirst matchIdAt true s

/-- Position matcher for `db\.[a-z0-9\.]+` with its trailing boundary;
backtracking strips trailing dots when the boundary fails. -/
def matchDbClassAt : List Char → Option (List Char)
  | 'd' :: 'b' :: '.' :: rest =>
    let run := rest.takeWhile fun c => ('a' ≤ c && c ≤ 'z') || c.isDigit || c == '.'
    let cand := (run.reverse.dropWhile fun c => c == '.').reverse
    if cand.isEmpty then none
    else if cand.length == run.length then
      match rest.drop run.length with
      | [] => some ('d' :: 'b' :: '.' :: cand)
      | e :: _ => if isWordChar e then none else some ('d' :: 'b' :: '.' :: cand)
    else some ('d' :: 'b' :: '.' :: cand)
  | _ => none

/-- `\b(db\.[a-z0-9\.]+)\b`. -/
def dbClassMatch (s : List Char) : Option (List Char) :=
  scanFirst matchDbClassAt true s

/-- `\b(mysql|postgres|postgresql|mariadb|oracle|sqlserver)\b`. -/
def engineMatch (s : List Char) : Option (List Char) :=
  scanWordCapture
    [str "mysql", str "postgres", str "postgresql", str "mariadb",
     str "oracle", str "sqlserver"] true s

/-- `\b(terraform|boto3|python)\b`. -/
def serviceMatch (s : List Char) : Option (List Char) :=
  scanWordCapture [str "terraform", str "boto3", str "python"] true s

/-- Decimal rendering of a Python integer (`str(i)`). -/
def intStr (i : Int) : List Char :=
  if i < 0 then '-' :: Nat.toDigits 10 i.natAbs else Nat.toDigits 10 i.toNat

/-- Python slice `s[-6:]`. -/
def pyLast6 (s : List Char) : List Char := s.drop (s.length - 6)

/-- The structured command returned by `NaturalLanguageParser.parse_command`:
one constructor per `action` value, carrying exactly the keys of the returned
dictionary. -/
inductive Intent where
  | createEc2 (instance_type region instance_name : List Char)
  | createS3 (bucket_name region : List Char) (versioning : Bool)
  | createRds (engine db_instance_class db_name region : List Char)
  | deleteResource (resource_type resource_identifier : List Char)
  | generateCode (service_type user_input : List Char)
  | deployCustom (user_input : List Char)
  | getState (resource_type : List Char)
  deriving DecidableEq, Repr

/-- `NaturalLanguageParser.parse_command` (`mcp_client1.py`, lines 186–296).
`pyhash` embeds Python's built-in `hash` on strings, which is salted per
process run; it is an explicit parameter so that run-to-run variation can be
stated. -/
def parse_command (pyhash : List Char → Int) (command0 : List Char) : Intent :=
  let command := stripLn (lowerStr command0)
  if scanKw2 [str "create", str "launch", str "start"] (str "ec2") (str "instance") true command then
    .createEc2
      ((instanceTypeMatch command).getD (str "t2.micro"))
      ((regionMatch command).getD (str "ap-south-1"))
      ((nameMatch command).getD (str "example"))
  else if scanKw2 [str "create", str "make"] (str "s3") (str "bucket") true command then
    .createS3
      ((bucketMatch command).getD (str "test-bucket-" ++ pyLast6 (intStr (pyhash command))))
      ((regionMatch command).getD (str "ap-south-1"))
      (scanWordAny [str "versioning"] command)
  else if scanKw2 [str "create", str "setup"] (str "rds") (str "database") true command then
    let engine0 := (engineMatch command).getD (str "mysql")
    let engine :=
      if engine0 == str "postgres" || engine0 == str "postgresql" then str "postgres" else engine0
    .createRds engine
      ((dbClassMatch command).getD (str "db.t3.micro"))
      ((nameMatch command).getD (str "testdb"))
      ((regionMatch command).getD (str "ap-south-1"))
  else if scanWordAny [str "delete", str "destroy", str "remove"] command then
    if hasSub (str "ec2") command then
      .deleteResource (str "ec2") ((idMatch command).getD (str "unknown"))
    else if hasSub (str "s3") command then
      .deleteResource (str "s3") ((bucketMatch command).getD (str "unknown"))
    else if hasSub (str "rds") command then
      .deleteResource (str "rds") ((dbMatch command).getD (str "unknown"))
    else
      -- the `elif` chain was entered but no branch returned, so control skips
      -- the remaining `elif` categories and reaches the final default return
      .generateCode (str "terraform") command
  else if scanKw1 [str "generate", str "create", str "show"] (str "code") true command then
    .generateCode ((serviceMatch command).getD (str "terraform")) command
  else if scanWordAny [str "deploy", str "build", str "setup"] command then
    .deployCustom command
  else if scanWordAny [str "state", str "status", str "info"] command then
    .getState
      (if hasSub (str "ec2") command then str "ec2"
       else if hasSub (str "s3") command then str "s3"
       else if hasSub (str "rds") command then str "rds"
       else str "ec2")
  else
    .generateCode (str "terraform") command

/-! ### Python `str.replace` (all non-overlapping occurrences, left to right) -/

/-- Fuel-indexed scanner behind `pyReplace`; the fuel only serves structural
recursion and `s.length` of it always suffices. -/
def replA (pat rep : List Char) : Nat → List Char → List Char
  | _, [] => []
  | 0, s => s
  | fuel + 1, c :: cs =>
    if pat.isEmpty then c :: replA pat rep fuel cs
    else if leadsWith pat (c :: cs) then
      rep ++ replA pat rep fuel (List.drop pat.length (c :: cs))
    else c :: replA pat rep fuel cs

/-- Python `s.replace(pat, rep)` for non-empty `pat`. -/
def pyReplace (s pat rep : List Char) : List Char := replA pat rep s.length s

/-! ### Configuration templates (`prompts.py`) and composition
(`terraform_generator.py`) -/

/-- `ec2_terraform_prompt` (`prompts.py`, lines 6–25). -/
def ec2_terraform_prompt (instance_type ami subnet_id security_group_id region : List Char) :
    List Char :=
  str "\nresource \"aws_instance\" \"example\" \x7b\n  ami           = \"" ++ ami
    ++ str "\"\n  instance_type = \"" ++ instance_type
    ++ str "\"\n  subnet_id     = " ++ subnet_id
    ++ str "\n  vpc_security_group_ids = [" ++ security_group_id
    ++ str "]\n  \n  tags = \x7b\n    Name = \"ExampleInstance\"\n    Environment = \"development\"\n    ManagedBy = \"terraform\"\n  \x7d\n\x7d\n\nprovider \"aws\" \x7b\n  region = \""
    ++ region ++ str "\"\n\x7d\n"

/-- `default_vpc_resources_prompt` (`prompts.py`, lines 27–149). -/
def default_vpc_resources_prompt (region : List Char) : List Char :=
  str "\nresource \"aws_vpc\" \"default\" \x7b\n  cidr_block           = \"10.0.0.0/16\"\n  enable_dns_hostnames = true\n  enable_dns_support   = true\n  \n  tags = \x7b\n    Name = \"DefaultVPC\"\n    Environment = \"development\"\n    ManagedBy = \"terraform\"\n  \x7d\n\x7d\n\nresource \"aws_subnet\" \"default\" \x7b\n  vpc_id                  = aws_vpc.default.id\n  cidr_block              = \"10.0.1.0/24\"\n  availability_zone       = \""
    ++ region
    ++ str "a\"\n  map_public_ip_on_launch = true\n  \n  tags = \x7b\n    Name = \"DefaultSubnet\"\n    Environment = \"development\"\n    ManagedBy = \"terraform\"\n  \x7d\n\x7d\n\nresource \"aws_internet_gateway\" \"default\" \x7b\n  vpc_id = aws_vpc.default.id\n  \n  tags = \x7b\n    Name = \"DefaultIGW\"\n    Environment = \"development\"\n    ManagedBy = \"terraform\"\n  \x7d\n\x7d\n\nresource \"aws_route_table\" \"default\" \x7b\n  vpc_id = aws_vpc.default.id\n  \n  route \x7b\n    cidr_block = \"0.0.0.0/0\"\n    gateway_id = aws_internet_gateway.default.id\n  \x7d\n  \n  tags = \x7b\n    Name = \"DefaultRouteTable\"\n    Environment = \"development\"\n    ManagedBy = \"terraform\"\n  \x7d\n\x7d\n\nresource \"aws_route_table_association\" \"default\" \x7b\n  subnet_id      = aws_subnet.default.id\n  route_table_id = aws_route_table.default.id\n\x7d\n\nresource \"aws_security_group\" \"default\" \x7b\n  name        = \"default_sg\"\n  description = \"Default security group\"\n  vpc_id      = aws_vpc.default.id\n  \n  ingress \x7b\n    from_port   = 22\n    to_port     = 22\n    protocol    = \"tcp\"\n    cidr_blocks = [\"$\x7bvar.allowed_ssh_cidrs\x7d\"]\n    description = \"SSH access\"\n  \x7d\n  \n  ingress \x7b\n    from_port   = 80\n    to_port     = 80\n    protocol    = \"tcp\"\n    cidr_blocks = [\"0.0.0.0/0\"]\n    description = \"HTTP access\"\n  \x7d\n  \n  ingress \x7b\n    from_port   = 443\n    to_port     = 443\n    protocol    = \"tcp\"\n    cidr_blocks = [\"0.0.0.0/0\"]\n    description = \"HTTPS access\"\n  \x7d\n  \n  egress \x7b\n    from_port   = 0\n    to_port     = 0\n    protocol    = \"-1\"\n    cidr_blocks = [\"0.0.0.0/0\"]\n    description = \"All outbound traffic\"\n  \x7d\n  \n  tags = \x7b\n    Name = \"DefaultSG\"\n    Environment = \"development\"\n    ManagedBy = \"terraform\"\n  \x7d\n\x7d\n\nvariable \"allowed_ssh_cidrs\" \x7b\n  description = \"CIDR blocks allowed for SSH access\"\n  type        = string\n  default     = \"10.0.0.0/8\"\n\x7d\n\noutput \"vpc_id\" \x7b\n  description = \"ID of the VPC\"\n  value       = aws_vpc.default.id\n\x7d\n\noutput \"subnet_id\" \x7b\n  description = \"ID of the subnet\"\n  value       = aws_subnet.default.id\n\x7d\n\noutput \"security_group_id\" \x7b\n  description = \"ID of the security group\"\n  value       = aws_security_group.default.id\n\x7d\n"

/-- The `main.tf` text written by `TerraformGenerator.generate_ec2_tf`
(`terraform_generator.py`, lines 22–52): the VPC fragment plus the EC2
fragment, after the two placeholder substitutions. -/
def generate_ec2_tf_content (instance_type ami region instance_name : List Char) : List Char :=
  let vpc_content := default_vpc_resources_prompt region
  let ec2_content :=
    ec2_terraform_prompt instance_type ami (str "aws_subnet.default.id")
      (str "aws_security_group.default.id") region
  let ec2_content :=
    pyReplace ec2_content (str "resource \"aws_instance\" \"example\"")
      (str "resource \"aws_instance\" \"" ++ instance_name ++ str "\"")
  let ec2_content :=
    pyReplace ec2_content (str "Name = \"ExampleInstance\"")
      (str "Name = \"" ++ instance_name ++ str "\"")
  vpc_content ++ str "\n" ++ ec2_content

/-- The `main.tf` text written by `TerraformGenerator.generate_s3_tf`
(`terraform_generator.py`, lines 67–114). -/
def generate_s3_tf_content (bucket_name region : List Char) (versioning : Bool) : List Char :=
  let lbl := pyReplace bucket_name (str "-") (str "_")
  str "\nprovider \"aws\" \x7b\n  region = \"" ++ region
    ++ str "\"\n\x7d\n\nresource \"aws_s3_bucket\" \"" ++ lbl
    ++ str "\" \x7b\n  bucket = \"" ++ bucket_name
    ++ str "\"\n  \n  tags = \x7b\n    Name = \"" ++ bucket_name
    ++ str "\"\n    Environment = \"development\"\n    ManagedBy = \"terraform\"\n  \x7d\n\x7d\n\nresource \"aws_s3_bucket_versioning\" \""
    ++ lbl ++ str "_versioning\" \x7b\n  bucket = aws_s3_bucket." ++ lbl
    ++ str ".id\n  versioning_configuration \x7b\n    status = \""
    ++ (if versioning then str "Enabled" else str "Disabled")
    ++ str "\"\n  \x7d\n\x7d\n\nresource \"aws_s3_bucket_server_side_encryption_configuration\" \""
    ++ lbl ++ str "_encryption\" \x7b\n  bucket = aws_s3_bucket." ++ lbl
    ++ str ".id\n\n  rule \x7b\n    apply_server_side_encryption_by_default \x7b\n      sse_algorithm = \"AES256\"\n    \x7d\n  \x7d\n\x7d\n\noutput \"bucket_name\" \x7b\n  description = \"Name of the S3 bucket\"\n  value       = aws_s3_bucket."
    ++ lbl ++ str ".bucket\n\x7d\n\noutput \"bucket_arn\" \x7b\n  description = \"ARN of the S3 bucket\"\n  value       = aws_s3_bucket."
    ++ lbl ++ str ".arn\n\x7d\n"

/-- Association-list lookup mirroring Python `dict.get` on a literal dict. -/
def lookupAssoc {α : Type} : List Char → List (List Char × α) → Option α
  | _, [] => none
  | k, (k', v) :: rest => if k = k' then some v else lookupAssoc k rest

/-- The engine → version table of `TerraformGenerator._get_engine_version`
(`terraform_generator.py`, lines 251–260). -/
def engineVersions : List (List Char × List Char) :=
  [(str "mysql", str "8.0"), (str "postgres", str "13.7"), (str "mariadb", str "10.6"),
   (str "oracle-ee", str "19.0.0.0.ru-2022-01.rur-2022-01.r1"),
   (str "sqlserver-ex", str "15.00.4153.1.v1")]

/-- `TerraformGenerator._get_engine_version`: table lookup on the lower-cased
engine, defaulting to `"8.0"`. -/
def get_engine_version (engine : List Char) : List Char :=
  (lookupAssoc (lowerStr engine) engineVersions).getD (str "8.0")

/-- The engine → port table of `TerraformGenerator._get_db_port`
(`terraform_generator.py`, lines 262–271). -/
def enginePorts : List (List Char × Int) :=
  [(str "mysql", 3306), (str "postgres", 5432), (str "mariadb", 3306),
   (str "oracle-ee", 1521), (str "sqlserver-ex", 1433)]

/-- `TerraformGenerator._get_db_port`: table lookup on the lower-cased engine,
defaulting to `3306`. -/
def get_db_port (engine : List Char) : Int :=
  (lookupAssoc (lowerStr engine) enginePorts).getD 3306

/-! ### Lifecycle runner and endpoints (`mcp_fastapi_server.py`)

An external process invocation is embedded by its observable result. -/

/-- A completed `subprocess.run` invocation. -/
structure ProcResult where
  returncode : Int
  stdout : List Char
  stderr : List Char
  deriving DecidableEq, Repr

/-- One stage's invocation: either it completed (any exit status) or it raised
`subprocess.TimeoutExpired`. -/
inductive StageRun where
  | completed (r : ProcResult)
  | timedOut
  deriving DecidableEq, Repr

/-- The dictionary built by `run_terraform_commands` when all three stages
complete (`mcp_fastapi_server.py`, lines 113–123). -/
structure TfCommandOutcome where
  terraform_init_stdout : List Char
  terraform_init_stderr : List Char
  terraform_plan_stdout : List Char
  terraform_plan_stderr : List Char
  terraform_apply_stdout : List Char
  terraform_apply_stderr : List Char
  init_success : Bool
  plan_success : Bool
  apply_success : Bool
  deriving DecidableEq, Repr

/-- Return value of `run_terraform_commands`: the per-stage dictionary, or the
single `{"error": …}` dictionary produced by an exception handler. -/
inductive TfRunResult where
  | ok (o : TfCommandOutcome)
  | err (error : List Char)
  deriving DecidableEq, Repr

/-- `run_terraform_commands` (`mcp_fastapi_server.py`, lines 83–129): `init`,
`plan` and `apply` run in sequence regardless of earlier failures; the first
stage to raise `TimeoutExpired` aborts the function with the single synthetic
error dictionary. -/
def run_terraform_commands (init_stage plan_stage apply_stage : StageRun) : TfRunResult :=
  match init_stage with
  | .timedOut => .err (str "Terraform command timed out")
  | .completed init_result =>
    match plan_stage with
    | .timedOut => .err (str "Terraform command timed out")
    | .completed plan_result =>
      match apply_stage with
      | .timedOut => .err (str "Terraform command timed out")
      | .completed apply_result =>
        .ok
          { terraform_init_stdout := init_result.stdout
            terraform_init_stderr := init_result.stderr
            terraform_plan_stdout := plan_result.stdout
            terraform_plan_stderr := plan_result.stderr
            terraform_apply_stdout := apply_result.stdout
            terraform_apply_stderr := apply_result.stderr
            init_success := init_result.returncode == 0
            plan_success := plan_result.returncode == 0
            apply_success := apply_result.returncode == 0 }

/-- The specification's `LifecycleOutcome.overall_success` for the create path,
stated in the spec's own words: true iff every gating stage (initialize and
apply; plan is non-gating) exited with a success status.  This definition
follows the spec, not the code — the code returns the three per-stage flags
and no aggregate — and the claim compares the two. -/
def specOverallSuccess (o : TfCommandOutcome) : Bool :=
  o.init_success && o.apply_success

/-- The `tf_dir_mapping` dictionary with its `.get(resource_type,
"terraform_ec2")` default (`mcp_fastapi_server.py`, lines 291–297 and
328–334). -/
def tf_dir_mapping (resource_type : List Char) : List Char :=
  (lookupAssoc resource_type
      [(str "ec2", str "terraform_ec2"), (str "s3", str "terraform_s3"),
       (str "rds", str "terraform_rds")]).getD
    (str "terraform_ec2")

/-- `os.path.join("terraform", d)` for the relative directory names used here. -/
def tf_dir_of (resource_type : List Char) : List Char :=
  str "terraform/" ++ tf_dir_mapping resource_type

/-- Response of the `/delete_resource` endpoint: the 404 raised when the
directory is missing, or the result dictionary of the destroy run. -/
inductive DeleteResponse where
  | httpNotFound (detail : List Char)
  | ok (resource_type resource_identifier destroy_stdout destroy_stderr : List Char)
      (success : Bool)
  deriving DecidableEq, Repr

/-- `delete_resource` (`mcp_fastapi_server.py`, lines 284–318): directory from
`tf_dir_mapping`, 404 when absent, otherwise one `terraform destroy` run whose
exit status becomes `success`.  `dirExists` embeds `os.path.exists(tf_dir)` and
`destroy` the destroy invocation's result. -/
def delete_resource (resource_type resource_identifier : List Char) (dirExists : Bool)
    (destroy : ProcResult) : DeleteResponse :=
  if !dirExists then
    .httpNotFound (str "No Terraform configuration found for " ++ resource_type)
  else
    .ok resource_type resource_identifier destroy.stdout destroy.stderr
      (destroy.returncode == 0)

/-- Response of the `/terraform_state/{resource_type}` endpoint, one
constructor per returned dictionary shape.  `J` is the type of parsed state
data. -/
inductive StateResponse (J : Type) where
  | errNotFound (error : List Char)
  | okState (resource_type : List Char) (state : J)
  | okRaw (resource_type raw_output : List Char)
  | errFailed (error stderr : List Char)
  deriving DecidableEq, Repr

/-- `get_terraform_state` (`mcp_fastapi_server.py`, lines 324–370).
`parseJson` embeds `json.loads` (`none` for a `JSONDecodeError`), `dirExists`
embeds `os.path.exists(tf_dir)`, and `show_result` the `terraform show -json`
invocation's result. -/
def get_terraform_state {J : Type} (parseJson : List Char → Option J) (dirExists : Bool)
    (resource_type : List Char) (show_result : ProcResult) : StateResponse J :=
  if !dirExists then
    .errNotFound (str "No Terraform configuration found for " ++ resource_type)
  else if show_result.returncode == 0 then
    match parseJson show_result.stdout with
    | some state => .okState resource_type state
    | none => .okRaw resource_type show_result.stdout
  else
    .errFailed (str "Failed to retrieve Terraform state") show_result.stderr

/-! ### Configuration mutator

`removeResourceBlock` is code of this repository that is not among the sources
at hand (only the specification describes it), so it is modelled from the
specification, §4.3. -/

/-- Count of opening minus closing braces on one line (the line's structural
delimiter balance). -/
def braceDelta (l : List Char) : Int :=
  (l.count '\x7b' : Int) - (l.count '\x7d' : Int)

/-- Total delimiter balance of a line sequence. -/
def linesDelta (ls : List (List Char)) : Int :=
  (ls.map braceDelta).sum

/-- The exact resource declaration text whose presence on a line triggers the
removal. -/
def declText (kind name : List Char) : List Char :=
  str "resource \"" ++ kind ++ str "\" \"" ++ name ++ str "\""

/-- Modelled from the spec: a line "containing the exact resource declaration
for the given kind and name" (§4.3). -/
def isDeclLine (kind name l : List Char) : Bool :=
  hasSub (declText kind name) l

/-- Python `line.strip() == ''`: an all-blank line. -/
def isBlankLine (l : List Char) : Bool :=
  stripLn l == []

/-- Python `line.strip() == '}'`: a lone closing delimiter. -/
def isLoneClose (l : List Char) : Bool :=
  stripLn l == ['\x7d']

/-- Modelled from the spec: the deletion pass of `removeResourceBlock` (§4.3).
The state is `none` outside a block and `some d` while skipping with depth
counter `d`; a declaration line seeds the counter with its own delimiter
balance, every subsequent skipped line updates it, and skipping ends (that line
also removed) once the counter reaches zero or below. -/
def removeScan (p : List Char → Bool) : Option Int → List (List Char) → List (List Char)
  | _, [] => []
  | none, l :: ls =>
    if p l then removeScan p (some (braceDelta l)) ls else l :: removeScan p none ls
  | some d, l :: ls =>
    if d + braceDelta l ≤ 0 then removeScan p none ls
    else removeScan p (some (d + braceDelta l)) ls

/-- Final skipping state of the deletion pass (`none` when the scan is not left
inside an unterminated block at end of file). -/
def removeScanSt (p : List Char → Bool) : Option Int → List (List Char) → Option Int
  | st, [] => st
  | none, l :: ls =>
    if p l then removeScanSt p (some (braceDelta l)) ls else removeScanSt p none ls
  | some d, l :: ls =>
    if d + braceDelta l ≤ 0 then removeScanSt p none ls
    else removeScanSt p (some (d + braceDelta l)) ls

/-- Modelled from the spec: the cleanup pass of `removeResourceBlock` (§4.3) —
drop a lone closing delimiter at the start of the sequence or directly after an
all-blank line, and drop all blank lines.  The boolean records whether the
previous line (of the pass's input) was a boundary. -/
def cleanupScan : Bool → List (List Char) → List (List Char)
  | _, [] => []
  | bdry, l :: ls =>
    if isLoneClose l && bdry then cleanupScan (isBlankLine l) ls
    else if isBlankLine l then cleanupScan (isBlankLine l) ls
    else l :: cleanupScan (isBlankLine l) ls

/-- Does the cleanup pass drop no lone-closing-delimiter line on this input?
(Blank lines carry no delimiters, so under this condition cleanup preserves the
delimiter balance.) -/
def cleanOk : Bool → List (List Char) → Bool
  | _, [] => true
  | bdry, l :: ls =>
    if isLoneClose l && bdry then false
    else cleanOk (isBlankLine l) ls

/-- Modelled from the spec: `removeResourceBlock(filePath, resourceKind,
resourceName)` (§4.3) on the file's line sequence — the deletion pass followed
by the cleanup pass. -/
def removeResourceBlock (kind name : List Char) (ls : List (List Char)) : List (List Char) :=
  cleanupScan true (removeScan (isDeclLine kind name) none ls)

/-! ### Decomposition segments of the composed EC2 configuration

With the request defaults for instance type, image and region, the generated
`main.tf` text splits around the two caller-name positions; these segments are
the concrete text between them. -/

/-- The resource-label position after substitution. -/
def ec2LabelText (instance_name : List Char) : List Char :=
  str "resource \"aws_instance\" \"" ++ instance_name ++ str "\""

/-- The tag-value position after substitution. -/
def ec2TagText (instance_name : List Char) : List Char :=
  str "Name = \"" ++ instance_name ++ str "\""

/-- Everything before the resource-label position: the VPC fragment, the
joining newline, and the EC2 fragment's leading newline. -/
def ec2PreSeg : List Char :=
  default_vpc_resources_prompt (str "ap-south-1") ++ str "\n\n"

/-- The text between the resource-label position and the tag-value position. -/
def ec2MidSeg : List Char :=
  str " \x7b\n  ami           = \"ami-03f4878755434977f\"\n  instance_type = \"t2.micro\"\n  subnet_id     = aws_subnet.default.id\n  vpc_security_group_ids = [aws_security_group.default.id]\n  \n  tags = \x7b\n    "

/-- The text after the tag-value position. -/
def ec2TailSeg : List Char :=
  str "\n    Environment = \"development\"\n    ManagedBy = \"terraform\"\n  \x7d\n\x7d\n\nprovider \"aws\" \x7b\n  region = \"ap-south-1\"\n\x7d\n"

/-! ## Theorems -/

/-! ### Scanner lemmas -/

lemma hasSub_cons (pat : List Char) (c : Char) (cs : List Char)
    (h : hasSub pat cs = true) : hasSub pat (c :: cs) = true := by
  simp only [hasSub, Bool.or_eq_true]
  exact Or.inr h

lemma hasSub_drop (pat : List Char) (n : Nat) (s : List Char)
    (h : hasSub pat (List.drop n s) = true) : hasSub pat s = true := by
  induction n generalizing s with
  | zero => simpa using h
  | succ n ih =>
    cases s with
    | nil => simpa using h
    | cons c cs => exact hasSub_cons pat c cs (ih cs (by simpa using h))

lemma findGap_hasSub (pat : List Char) (s r : List Char)
    (h : findGap pat s = some r) : hasSub pat s = true := by
  induction s with
  | nil =>
    simp only [findGap] at h
    split at h
    · simpa [hasSub] using ‹leadsWith pat [] = true›
    · exact absurd h (by simp)
  | cons c cs ih =>
    simp only [findGap] at h
    split at h
    · simp [hasSub, *]
    · split at h
      · exact absurd h (by simp)
      · exact hasSub_cons pat c cs (ih h)

lemma scanKw2_hasSub_mid (kws : List (List Char)) (mid fin : List Char) (b : Bool)
    (s : List Char) (h : scanKw2 kws mid fin b s = true) : hasSub mid s = true := by
  induction s generalizing b with
  | nil => simp [scanKw2] at h
  | cons c cs ih =>
    simp only [scanKw2, Bool.or_eq_true, Bool.and_eq_true, List.any_eq_true] at h
    rcases h with ⟨-, k, -, -, hg⟩ | h
    · rcases hg' : findGap mid (List.drop k.length (c :: cs)) with - | r
      · rw [hg'] at hg; exact absurd hg (by simp)
      · exact hasSub_drop mid k.length (c :: cs) (findGap_hasSub mid _ r hg')
    · exact hasSub_cons mid c cs (ih _ h)

/-! ### `pyReplace` rewrite lemmas -/

lemma replA_fuel_eq (pat rep : List Char) (hp : pat.isEmpty = false) :
    ∀ (f : Nat) (s : List Char), s.length ≤ f →
      replA pat rep f s = replA pat rep s.length s := by
  intro f
  induction f using Nat.strong_induction_on with
  | _ f ih =>
    intro s hs
    match f, s with
    | f, [] => cases f <;> rfl
    | 0, c :: cs => simp at hs
    | f + 1, c :: cs =>
      have hcs : cs.length ≤ f := by simpa using hs
      have hpat1 : 1 ≤ pat.length := by
        cases pat
        · simp at hp
        · simp
      simp only [List.length_cons, replA, hp, Bool.false_eq_true, if_false]
      by_cases hl : leadsWith pat (c :: cs) = true
      · rw [if_pos hl, if_pos hl]
        have hd : (List.drop pat.length (c :: cs)).length ≤ cs.length := by
          simp only [List.length_drop, List.length_cons]
          omega
        rw [ih f (by omega) _ (le_trans hd hcs), ih cs.length (by omega) _ hd]
      · rw [if_neg hl, if_neg hl, ih f (by omega) cs hcs, ih cs.length (by omega) cs le_rfl]

lemma pyReplace_cons_skip (pat rep : List Char) (hp : pat.isEmpty = false) (c : Char)
    (cs : List Char) (h : leadsWith pat (c :: cs) = false) :
    pyReplace (c :: cs) pat rep = c :: pyReplace cs pat rep := by
  unfold pyReplace
  simp only [List.length_cons, replA, hp, h, Bool.false_eq_true, if_false]

lemma pyReplace_cons_match (pat rep : List Char) (hp : pat.isEmpty = false) (c : Char)
    (cs : List Char) (h : leadsWith pat (c :: cs) = true) :
    pyReplace (c :: cs) pat rep
      = rep ++ pyReplace (List.drop pat.length (c :: cs)) pat rep := by
  have hpat1 : 1 ≤ pat.length := by
    cases pat
    · simp at hp
    · simp
  unfold pyReplace
  simp only [List.length_cons, replA, hp, h, Bool.false_eq_true, if_false, if_true]
  congr 1
  exact replA_fuel_eq pat rep hp cs.length _
    (by simp only [List.length_drop, List.length_cons]; omega)

lemma leadsWith_self_append (pat B : List Char) : leadsWith pat (pat ++ B) = true := by
  induction pat with
  | nil => rfl
  | cons p ps ih => simp [leadsWith, ih]

lemma leadsWith_ne_head (p : Char) (ps : List Char) (c : Char) (cs : List Char)
    (h : (p == c) = false) : leadsWith (p :: ps) (c :: cs) = false := by
  simp [leadsWith, h]

lemma pyReplace_append_match (p : Char) (ps rep B : List Char) :
    pyReplace ((p :: ps) ++ B) (p :: ps) rep = rep ++ pyReplace B (p :: ps) rep := by
  have h := pyReplace_cons_match (p :: ps) rep (by simp) p (ps ++ B)
    (leadsWith_self_append (p :: ps) B)
  rw [List.cons_append, h]
  congr 2
  simp

lemma pyReplace_skip_chunk (p : Char) (ps rep : List Char) (A B : List Char)
    (h : ∀ c ∈ A, (p == c) = false) :
    pyReplace (A ++ B) (p :: ps) rep = A ++ pyReplace B (p :: ps) rep := by
  induction A with
  | nil => simp
  | cons a A ih =>
    rw [List.cons_append,
      pyReplace_cons_skip (p :: ps) rep (by simp) a (A ++ B)
        (leadsWith_ne_head p ps a (A ++ B) (h a (List.mem_cons_self _ _))),
      ih fun c hc => h c (List.mem_cons_of_mem _ hc), List.cons_append]

/-- Replacing the single-character pattern `"-"` by `"_"` is the character-wise
hyphen-to-underscore map (the spec's description of label sanitisation). -/
lemma pyReplace_dash_map (bucket : List Char) :
    pyReplace bucket (str "-") (str "_")
      = bucket.map fun c => if c == '-' then '_' else c := by
  induction bucket with
  | nil => rfl
  | cons c cs ih =>
    by_cases hc : ('-' == c) = true
    · have hceq : c = '-' := (eq_of_beq hc).symm
      have hl : leadsWith (str "-") (c :: cs) = true := by
        subst hceq; exact leadsWith_self_append (str "-") cs
      rw [pyReplace_cons_match _ _ (by decide) _ _ hl]
      have hdrop : List.drop (str "-").length (c :: cs) = cs := by rfl
      rw [hdrop, ih]
      subst hceq
      simp [str]
    · have hl : leadsWith (str "-") (c :: cs) = false :=
        leadsWith_ne_head '-' [] c cs (by simpa using hc)
      have hne : ¬ c = '-' := fun hcc => hc (by rw [hcc]; decide)
      rw [pyReplace_cons_skip _ _ (by decide) _ _ hl, ih]
      simp [List.map, hne]

lemma sanitized_no_dash (bucket : List Char) :
    ∀ c ∈ pyReplace bucket (str "-") (str "_"), ¬ c = '-' := by
  rw [pyReplace_dash_map]
  intro c hc
  rcases List.mem_map.mp hc with ⟨a, -, rfl⟩
  by_cases h : a = '-'
  · subst h; decide
  · have hb : (a == '-') = false := by simp [h]
    simp [hb, h]

/-! ### No occurrence of the tag placeholder can overlap an identifier name

The placeholder `Name = "ExampleInstance"` contains a space at position 4 and
starts with `N`; a text made of identifier characters followed by a closing
quote can therefore never begin an occurrence of it.  The chain below walks the
pattern's first five characters. -/

lemma lwTag4 (A R : List Char) (hA : ∀ c ∈ A, isNameGrp c = true) :
    leadsWith (str " = \"ExampleInstance\"") (A ++ '"' :: R) = false := by
  cases A with
  | nil => rfl
  | cons a A' =>
    have ha := hA a (List.mem_cons_self _ _)
    have hne : (' ' == a) = false := by
      cases hsp : (' ' == a) with
      | false => rfl
      | true => rw [← eq_of_beq hsp] at ha; exact absurd ha (by decide)
    have hd : str " = \"ExampleInstance\"" = ' ' :: str "= \"ExampleInstance\"" := rfl
    rw [hd, List.cons_append]
    exact leadsWith_ne_head ' ' _ a _ hne

lemma lwTag3 (A R : List Char) (hA : ∀ c ∈ A, isNameGrp c = true) :
    leadsWith (str "e = \"ExampleInstance\"") (A ++ '"' :: R) = false := by
  have hd : str "e = \"ExampleInstance\"" = 'e' :: str " = \"ExampleInstance\"" := rfl
  cases A with
  | nil => rfl
  | cons a A' =>
    by_cases hae : a = 'e'
    · subst hae
      rw [hd, List.cons_append]
      simp only [leadsWith, beq_self_eq_true, Bool.true_and]
      exact lwTag4 A' R fun c hc => hA c (List.mem_cons_of_mem _ hc)
    · have hne : ('e' == a) = false := by
        cases hsp : ('e' == a) with
        | false => rfl
        | true => exact absurd (eq_of_beq hsp).symm hae
      rw [hd, List.cons_append]
      exact leadsWith_ne_head 'e' _ a _ hne

lemma lwTag2 (A R : List Char) (hA : ∀ c ∈ A, isNameGrp c = true) :
    leadsWith (str "me = \"ExampleInstance\"") (A ++ '"' :: R) = false := by
  have hd : str "me = \"ExampleInstance\"" = 'm' :: str "e = \"ExampleInstance\"" := rfl
  cases A with
  | nil => rfl
  | cons a A' =>
    by_cases hae : a = 'm'
    · subst hae
      rw [hd, List.cons_append]
      simp only [leadsWith, beq_self_eq_true, Bool.true_and]
      exact lwTag3 A' R fun c hc => hA c (List.mem_cons_of_mem _ hc)
    · have hne : ('m' == a) = false := by
        cases hsp : ('m' == a) with
        | false => rfl
        | true => exact absurd (eq_of_beq hsp).symm hae
      rw [hd, List.cons_append]
      exact leadsWith_ne_head 'm' _ a _ hne

lemma lwTag1 (A R : List Char) (hA : ∀ c ∈ A, isNameGrp c = true) :
    leadsWith (str "ame = \"ExampleInstance\"") (A ++ '"' :: R) = false := by
  have hd : str "ame = \"ExampleInstance\"" = 'a' :: str "me = \"ExampleInstance\"" := rfl
  cases A with
  | nil => rfl
  | cons a A' =>
    by_cases hae : a = 'a'
    · subst hae
      rw [hd, List.cons_append]
      simp only [leadsWith, beq_self_eq_true, Bool.true_and]
      exact lwTag2 A' R fun c hc => hA c (List.mem_cons_of_mem _ hc)
    · have hne : ('a' == a) = false := by
        cases hsp : ('a' == a) with
        | false => rfl
        | true => exact absurd (eq_of_beq hsp).symm hae
      rw [hd, List.cons_append]
      exact leadsWith_ne_head 'a' _ a _ hne

lemma lwTag0 (A R : List Char) (hA : ∀ c ∈ A, isNameGrp c = true) :
    leadsWith (str "Name = \"ExampleInstance\"") (A ++ '"' :: R) = false := by
  have hd : str "Name = \"ExampleInstance\"" = 'N' :: str "ame = \"ExampleInstance\"" := rfl
  cases A with
  | nil => rfl
  | cons a A' =>
    by_cases hae : a = 'N'
    · subst hae
      rw [hd, List.cons_append]
      simp only [leadsWith, beq_self_eq_true, Bool.true_and]
      exact lwTag1 A' R fun c hc => hA c (List.mem_cons_of_mem _ hc)
    · have hne : ('N' == a) = false := by
        cases hsp : ('N' == a) with
        | false => rfl
        | true => exact absurd (eq_of_beq hsp).symm hae
      rw [hd, List.cons_append]
      exact leadsWith_ne_head 'N' _ a _ hne

/-- Skipping a chunk that never contains the tag placeholder's first
character. -/
lemma pyReplace_skip_chunk_tag (rep A B : List Char) (h : ∀ c ∈ A, ('N' == c) = false) :
    pyReplace (A ++ B) (str "Name = \"ExampleInstance\"") rep
      = A ++ pyReplace B (str "Name = \"ExampleInstance\"") rep := by
  have hp2 : str "Name = \"ExampleInstance\"" = 'N' :: str "ame = \"ExampleInstance\"" := rfl
  rw [hp2]
  exact pyReplace_skip_chunk 'N' _ rep A B h

/-- The second substitution scans across the freshly inserted caller name
without matching, as long as the name is made of identifier characters. -/
lemma pyReplace_skip_name (rep name R : List Char) (hn : ∀ c ∈ name, isNameGrp c = true) :
    pyReplace (name ++ '"' :: R) (str "Name = \"ExampleInstance\"") rep
      = name ++ pyReplace ('"' :: R) (str "Name = \"ExampleInstance\"") rep := by
  induction name with
  | nil => simp
  | cons c name' ih =>
    have hlw : leadsWith (str "Name = \"ExampleInstance\"") (c :: (name' ++ '"' :: R)) = false := by
      have := lwTag0 (c :: name') R hn
      rwa [List.cons_append] at this
    rw [List.cons_append, pyReplace_cons_skip _ _ (by decide) _ _ hlw,
      ih fun x hx => hn x (List.mem_cons_of_mem _ hx), List.cons_append]

/-- Matching the tag placeholder itself. -/
lemma pyReplace_tag_match (rep B : List Char) :
    pyReplace (str "Name = \"ExampleInstance\"" ++ B) (str "Name = \"ExampleInstance\"") rep
      = rep ++ pyReplace B (str "Name = \"ExampleInstance\"") rep := by
  have hp2 : str "Name = \"ExampleInstance\"" = 'N' :: str "ame = \"ExampleInstance\"" := rfl
  rw [hp2]
  exact pyReplace_append_match 'N' _ rep B

/-- The first substitution on the composed EC2 fragment (with the request
defaults): the template carries exactly one occurrence of the label
placeholder, right after its leading newline. -/
lemma pyReplace_label_step (rep : List Char) :
    pyReplace (ec2_terraform_prompt (str "t2.micro") (str "ami-03f4878755434977f")
        (str "aws_subnet.default.id") (str "aws_security_group.default.id") (str "ap-south-1"))
      (str "resource \"aws_instance\" \"example\"") rep
    = '\n' :: (rep ++ (ec2MidSeg ++ (str "Name = \"ExampleInstance\"" ++ ec2TailSeg))) := rfl

/-- Counterexample to C6 as stated: for the adversarial caller name
`Name = "ExampleInstance"` — the tag placeholder itself — the first
substitution plants a second copy of the tag placeholder inside the resource
label, the second substitution rewrites both copies, and the final text no
longer contains the resource label rewritten to the caller's name. -/
theorem ec2_name_substitution_cex :
    hasSub (ec2LabelText (str "Name = \"ExampleInstance\""))
      (generate_ec2_tf_content (str "t2.micro") (str "ami-03f4878755434977f")
        (str "ap-south-1") (str "Name = \"ExampleInstance\"")) = false := by
  decide

/-- C6 (amended): for every caller-supplied instance name made of identifier
characters (letters, digits, hyphen, underscore — the parser's name-capture
alphabet), the composed compute configuration is exactly the concrete template
segments with the resource-label position and the tag-value position rewritten
to the caller's name, each placeholder replaced exactly once; the remaining
segments contain no occurrence of either placeholder. -/
theorem ec2_name_substitution (instance_name : List Char)
    (h : ∀ c ∈ instance_name, isNameGrp c = true) :
    generate_ec2_tf_content (str "t2.micro") (str "ami-03f4878755434977f") (str "ap-south-1")
        instance_name
      = ec2PreSeg ++ ec2LabelText instance_name ++ ec2MidSeg ++ ec2TagText instance_name
          ++ ec2TailSeg ∧
    hasSub (str "resource \"aws_instance\" \"example\"") ec2PreSeg = false ∧
    hasSub (str "resource \"aws_instance\" \"example\"") ec2MidSeg = false ∧
    hasSub (str "resource \"aws_instance\" \"example\"") ec2TailSeg = false ∧
    hasSub (str "Name = \"ExampleInstance\"") ec2PreSeg = false ∧
    hasSub (str "Name = \"ExampleInstance\"") ec2MidSeg = false ∧
    hasSub (str "Name = \"ExampleInstance\"") ec2TailSeg = false := by
  refine ⟨?_, by decide, by decide, by decide, by decide, by decide, by decide⟩
  have e1 : generate_ec2_tf_content (str "t2.micro") (str "ami-03f4878755434977f")
      (str "ap-south-1") instance_name
      = default_vpc_resources_prompt (str "ap-south-1") ++ str "\n"
        ++ pyReplace
            (pyReplace (ec2_terraform_prompt (str "t2.micro") (str "ami-03f4878755434977f")
              (str "aws_subnet.default.id") (str "aws_security_group.default.id")
              (str "ap-south-1"))
              (str "resource \"aws_instance\" \"example\"")
              (str "resource \"aws_instance\" \"" ++ instance_name ++ str "\""))
            (str "Name = \"ExampleInstance\"")
            (str "Name = \"" ++ instance_name ++ str "\"") := rfl
  rw [e1, pyReplace_label_step]
  have hshape : ((str "resource \"aws_instance\" \"" ++ instance_name ++ str "\"")
        ++ (ec2MidSeg ++ (str "Name = \"ExampleInstance\"" ++ ec2TailSeg)))
      = str "resource \"aws_instance\" \"" ++ (instance_name
          ++ ('"' :: (ec2MidSeg ++ (str "Name = \"ExampleInstance\"" ++ ec2TailSeg)))) := by
    have hq : str "\"" = ['"'] := rfl
    simp [hq, List.append_assoc]
  rw [hshape]
  rw [pyReplace_cons_skip (str "Name = \"ExampleInstance\"") _ (by decide) '\n' _ rfl]
  rw [pyReplace_skip_chunk_tag _ (str "resource \"aws_instance\" \"") _ (by decide)]
  rw [pyReplace_skip_name _ instance_name _ h]
  rw [pyReplace_cons_skip (str "Name = \"ExampleInstance\"") _ (by decide) '"' _ rfl]
  rw [pyReplace_skip_chunk_tag _ ec2MidSeg _ (by decide)]
  rw [pyReplace_tag_match]
  have htail : pyReplace ec2TailSeg (str "Name = \"ExampleInstance\"")
      (str "Name = \"" ++ instance_name ++ str "\"") = ec2TailSeg := by
    have h0 := pyReplace_skip_chunk_tag (str "Name = \"" ++ instance_name ++ str "\"")
      ec2TailSeg [] (by decide)
    simpa using h0
  rw [htail]
  have h1 : str "\n" = ['\n'] := rfl
  have h2 : str "\n\n" = ['\n', '\n'] := rfl
  have hq : str "\"" = ['"'] := rfl
  simp [ec2PreSeg, ec2LabelText, ec2TagText, h1, h2, hq, List.append_assoc]

/-- Witness for C6 (amended): the identifier name `web-1`. -/
theorem ec2_name_substitution_witness :
    (∀ c ∈ str "web-1", isNameGrp c = true) ∧
    generate_ec2_tf_content (str "t2.micro") (str "ami-03f4878755434977f") (str "ap-south-1")
        (str "web-1")
      = ec2PreSeg ++ ec2LabelText (str "web-1") ++ ec2MidSeg ++ ec2TagText (str "web-1")
          ++ ec2TailSeg :=
  ⟨by decide, (ec2_name_substitution (str "web-1") (by decide)).1⟩

/-- C7: in the composed object-store configuration, every resource label
position (bucket, versioning, encryption, and the symbolic references to them)
carries the bucket name with each hyphen replaced by an underscore — the
character-wise hyphen map, which never leaves a hyphen — while the `bucket`
attribute and the `Name` tag carry the original bucket name unchanged; in
particular `"my-data-bucket"` yields labels using `"my_data_bucket"`. -/
theorem s3_labels_sanitized (bucket_name region : List Char) (versioning : Bool) :
    pyReplace bucket_name (str "-") (str "_")
        = (bucket_name.map fun c => if c == '-' then '_' else c) ∧
    (∀ c ∈ pyReplace bucket_name (str "-") (str "_"), ¬ c = '-') ∧
    generate_s3_tf_content bucket_name region versioning
      = str "\nprovider \"aws\" \x7b\n  region = \"" ++ region
          ++ str "\"\n\x7d\n\nresource \"aws_s3_bucket\" \""
          ++ pyReplace bucket_name (str "-") (str "_")
          ++ str "\" \x7b\n  bucket = \"" ++ bucket_name
          ++ str "\"\n  \n  tags = \x7b\n    Name = \"" ++ bucket_name
          ++ str "\"\n    Environment = \"development\"\n    ManagedBy = \"terraform\"\n  \x7d\n\x7d\n\nresource \"aws_s3_bucket_versioning\" \""
          ++ pyReplace bucket_name (str "-") (str "_")
          ++ str "_versioning\" \x7b\n  bucket = aws_s3_bucket."
          ++ pyReplace bucket_name (str "-") (str "_")
          ++ str ".id\n  versioning_configuration \x7b\n    status = \""
          ++ (if versioning then str "Enabled" else str "Disabled")
          ++ str "\"\n  \x7d\n\x7d\n\nresource \"aws_s3_bucket_server_side_encryption_configuration\" \""
          ++ pyReplace bucket_name (str "-") (str "_")
          ++ str "_encryption\" \x7b\n  bucket = aws_s3_bucket."
          ++ pyReplace bucket_name (str "-") (str "_")
          ++ str ".id\n\n  rule \x7b\n    apply_server_side_encryption_by_default \x7b\n      sse_algorithm = \"AES256\"\n    \x7d\n  \x7d\n\x7d\n\noutput \"bucket_name\" \x7b\n  description = \"Name of the S3 bucket\"\n  value       = aws_s3_bucket."
          ++ pyReplace bucket_name (str "-") (str "_")
          ++ str ".bucket\n\x7d\n\noutput \"bucket_arn\" \x7b\n  description = \"ARN of the S3 bucket\"\n  value       = aws_s3_bucket."
          ++ pyReplace bucket_name (str "-") (str "_") ++ str ".arn\n\x7d\n" ∧
    pyReplace (str "my-data-bucket") (str "-") (str "_") = str "my_data_bucket" :=
  ⟨pyReplace_dash_map bucket_name, sanitized_no_dash bucket_name, rfl, by decide⟩

/-! ### Delimiter-balance lemmas for the configuration mutator -/

lemma linesDelta_nil : linesDelta [] = 0 := rfl

lemma linesDelta_cons (l : List Char) (ls : List (List Char)) :
    linesDelta (l :: ls) = braceDelta l + linesDelta ls := by
  simp [linesDelta]

lemma stripLn_nil_all_ws (l : List Char) (h : stripLn l = []) :
    ∀ c ∈ l, c.isWhitespace = true := by
  unfold stripLn at h
  rw [List.reverse_eq_nil_iff, List.dropWhile_eq_nil_iff] at h
  intro c hc
  rcases List.mem_append.mp ((List.takeWhile_append_dropWhile (p := Char.isWhitespace)
      (l := l)) ▸ hc) with hc' | hc'
  · exact List.mem_takeWhile_imp hc'
  · exact h c (List.mem_reverse.mpr hc')

lemma blank_braceDelta (l : List Char) (h : isBlankLine l = true) : braceDelta l = 0 := by
  have hws := stripLn_nil_all_ws l (by simpa [isBlankLine] using h)
  have h1 : l.count '\x7b' = 0 := by
    rw [List.count_eq_zero]
    intro hm
    exact absurd (hws _ hm) (by decide)
  have h2 : l.count '\x7d' = 0 := by
    rw [List.count_eq_zero]
    intro hm
    exact absurd (hws _ hm) (by decide)
  simp [braceDelta, h1, h2]

/-- The deletion pass preserves the total delimiter balance whenever every
line's balance is at least `-1`, every declaration line opens its block
(balance at least `1`), and the scan does not end inside an unterminated
block.  The second conjunct carries the skipping-state invariant. -/
lemma removeScan_delta (p : List Char → Bool) (ls : List (List Char))
    (h1 : ∀ l ∈ ls, -1 ≤ braceDelta l)
    (h2 : ∀ l ∈ ls, p l = true → 1 ≤ braceDelta l) :
    (removeScanSt p none ls = none →
      linesDelta (removeScan p none ls) = linesDelta ls) ∧
    (∀ d : Int, 1 ≤ d → removeScanSt p (some d) ls = none →
      linesDelta (removeScan p (some d) ls) = linesDelta ls + d) := by
  induction ls with
  | nil =>
    refine ⟨fun _ => rfl, fun d hd hst => ?_⟩
    simp [removeScanSt] at hst
  | cons l ls ih =>
    have h1' : ∀ x ∈ ls, -1 ≤ braceDelta x := fun x hx => h1 x (List.mem_cons_of_mem _ hx)
    have h2' : ∀ x ∈ ls, p x = true → 1 ≤ braceDelta x :=
      fun x hx => h2 x (List.mem_cons_of_mem _ hx)
    obtain ⟨ihn, ihs⟩ := ih h1' h2'
    constructor
    · intro hst
      by_cases hp : p l = true
      · have hseed : 1 ≤ braceDelta l := h2 l (List.mem_cons_self _ _) hp
        have hrec := ihs (braceDelta l) hseed (by simpa [removeScanSt, hp] using hst)
        simp only [removeScan, hp, if_true, linesDelta_cons]
        omega
      · have hrec := ihn (by simpa [removeScanSt, hp] using hst)
        simp only [removeScan, hp, if_false, Bool.false_eq_true, linesDelta_cons]
        omega
    · intro d hd hst
      have hδ : -1 ≤ braceDelta l := h1 l (List.mem_cons_self _ _)
      by_cases hle : d + braceDelta l ≤ 0
      · have hz : braceDelta l = -d := by omega
        have hrec := ihn (by simpa [removeScanSt, hle] using hst)
        simp only [removeScan, hle, if_true, linesDelta_cons]
        omega
      · have hrec := ihs (d + braceDelta l) (by omega)
          (by simpa [removeScanSt, hle] using hst)
        simp only [removeScan, hle, if_false, linesDelta_cons]
        omega

/-- The cleanup pass preserves the total delimiter balance whenever it drops no
lone-closing-delimiter line (a blank line carries no delimiters). -/
lemma cleanupScan_delta (s : List (List Char)) : ∀ b, cleanOk b s = true →
    linesDelta (cleanupScan b s) = linesDelta s := by
  induction s with
  | nil => intro b _; rfl
  | cons l ls ih =>
    intro b h
    by_cases hlc : (isLoneClose l && b) = true
    · simp [cleanOk, hlc] at h
    · simp only [cleanOk, hlc, if_false, Bool.false_eq_true] at h
      by_cases hbl : isBlankLine l = true
      · have h0 := blank_braceDelta l hbl
        rw [hbl] at h
        simp only [cleanupScan, hlc, hbl, if_true, if_false, Bool.false_eq_true,
          linesDelta_cons, ih true h]
        omega
      · rw [Bool.not_eq_true] at hbl
        rw [hbl] at h
        simp only [cleanupScan, hlc, hbl, if_false, Bool.false_eq_true, linesDelta_cons,
          ih false h]

/-- Counterexample to C3 as stated: a three-line file with balanced delimiters
where the removed block's closing line carries two closing delimiters, so the
depth counter jumps from 1 to -1 and the removal deletes one closing delimiter
too many, leaving an unbalanced file. -/
theorem removeResourceBlock_can_unbalance :
    linesDelta [str "x\x7b", str "resource \"aws_instance\" \"web\" \x7b", str "\x7d\x7d"]
        = 0 ∧
      linesDelta (removeResourceBlock (str "aws_instance") (str "web")
        [str "x\x7b", str "resource \"aws_instance\" \"web\" \x7b", str "\x7d\x7d"]) ≠ 0 := by
  decide

/-- C3 (amended): `removeResourceBlock` preserves balanced structural
delimiters for every balanced file in which no line closes more than one level
(balance at least `-1`), every matching declaration line opens its block
(balance at least `1`), the deletion scan is not left inside an unterminated
block at end of file, and the cleanup pass drops no lone-closing-delimiter
line. -/
theorem removeResourceBlock_preserves_balance (kind name : List Char)
    (ls : List (List Char))
    (h0 : linesDelta ls = 0)
    (h1 : ∀ l ∈ ls, -1 ≤ braceDelta l)
    (h2 : ∀ l ∈ ls, isDeclLine kind name l = true → 1 ≤ braceDelta l)
    (h3 : removeScanSt (isDeclLine kind name) none ls = none)
    (h4 : cleanOk true (removeScan (isDeclLine kind name) none ls) = true) :
    linesDelta (removeResourceBlock kind name ls) = 0 := by
  have hdel := (removeScan_delta (isDeclLine kind name) ls h1 h2).1 h3
  unfold removeResourceBlock
  rw [cleanupScan_delta _ true h4, hdel, h0]

/-- Witness for C3 (amended): removing the compute block from a well-formed
two-resource configuration keeps the remaining file balanced. -/
theorem removeResourceBlock_preserves_balance_witness :
    linesDelta (removeResourceBlock (str "aws_instance") (str "web")
      [str "resource \"aws_instance\" \"web\" \x7b", str "  ami = \"x\"",
       str "  tags = \x7b", str "    Name = \"web\"", str "  \x7d", str "\x7d",
       str "provider \"aws\" \x7b", str "  region = \"r\"", str "\x7d"]) = 0 :=
  removeResourceBlock_preserves_balance (str "aws_instance") (str "web") _
    (by decide) (by decide) (by decide) (by decide) (by decide)

/-- C2: evaluation of the code at the failing input.  Python's built-in string
hash is salted per process run; on the input `"create s3 bucket"` the parser
takes the object-store branch, finds no bucket-name capture, and embeds
`str(hash(command))[-6:]` in the fallback bucket name — so two runs whose hash
functions differ on this input produce different intents, contradicting the
required cross-run determinism. -/
theorem intent_resolution_depends_on_hash_seed :
    parse_command (fun _ => 0) (str "create s3 bucket")
      ≠ parse_command (fun _ => 1) (str "create s3 bucket") := by
  decide

/-- Counterexample to C4 as stated: `"remove status"` matches a deletion
keyword, contains none of the three resource keywords, and matches the
state-inspection category — yet it resolves to the default code-generation
fallback, not to a state-inspection intent, because the `elif` chain was
already entered at the deletion branch. -/
theorem delete_without_resource_skips_later_categories :
    scanWordAny [str "delete", str "destroy", str "remove"] (str "remove status") = true ∧
    hasSub (str "ec2") (str "remove status") = false ∧
    hasSub (str "s3") (str "remove status") = false ∧
    hasSub (str "rds") (str "remove status") = false ∧
    scanWordAny [str "state", str "status", str "info"] (str "remove status") = true ∧
    parse_command (fun _ => 0) (str "remove status")
      = .generateCode (str "terraform") (str "remove status") ∧
    parse_command (fun _ => 0) (str "remove status") ≠ .getState (str "ec2") := by
  decide

/-- C4 (amended): a text that matches a deletion keyword but contains none of
the three resource keywords produces no deletion intent and resolves to the
default code-generation fallback intent carrying the normalized text; the
later categories (code generation, custom deployment, state inspection) are
not consulted. -/
theorem delete_without_resource_falls_to_default (pyhash : List Char → Int)
    (command0 : List Char)
    (hdel : scanWordAny [str "delete", str "destroy", str "remove"]
        (stripLn (lowerStr command0)) = true)
    (hec2 : hasSub (str "ec2") (stripLn (lowerStr command0)) = false)
    (hs3 : hasSub (str "s3") (stripLn (lowerStr command0)) = false)
    (hrds : hasSub (str "rds") (stripLn (lowerStr command0)) = false) :
    parse_command pyhash command0
      = .generateCode (str "terraform") (stripLn (lowerStr command0)) := by
  have h1 : scanKw2 [str "create", str "launch", str "start"] (str "ec2") (str "instance")
      true (stripLn (lowerStr command0)) = false := by
    cases hb : scanKw2 [str "create", str "launch", str "start"] (str "ec2") (str "instance")
        true (stripLn (lowerStr command0)) with
    | false => rfl
    | true =>
      have hc := scanKw2_hasSub_mid _ _ _ _ _ hb
      rw [hc] at hec2; exact Bool.noConfusion hec2
  have h2 : scanKw2 [str "create", str "make"] (str "s3") (str "bucket")
      true (stripLn (lowerStr command0)) = false := by
    cases hb : scanKw2 [str "create", str "make"] (str "s3") (str "bucket")
        true (stripLn (lowerStr command0)) with
    | false => rfl
    | true =>
      have hc := scanKw2_hasSub_mid _ _ _ _ _ hb
      rw [hc] at hs3; exact Bool.noConfusion hs3
  have h3 : scanKw2 [str "create", str "setup"] (str "rds") (str "database")
      true (stripLn (lowerStr command0)) = false := by
    cases hb : scanKw2 [str "create", str "setup"] (str "rds") (str "database")
        true (stripLn (lowerStr command0)) with
    | false => rfl
    | true =>
      have hc := scanKw2_hasSub_mid _ _ _ _ _ hb
      rw [hc] at hrds; exact Bool.noConfusion hrds
  simp only [parse_command, h1, h2, h3, hdel, hec2, hs3, hrds, Bool.false_eq_true, if_false,
    if_true, ite_true, ite_false]

/-- Witness for C4 (amended): `"remove it"` carries a deletion keyword and no
resource keyword, and resolves to the default fallback intent. -/
theorem delete_without_resource_falls_to_default_witness :
    parse_command (fun _ => 0) (str "remove it")
      = .generateCode (str "terraform") (str "remove it") := by
  have h := delete_without_resource_falls_to_default (fun _ => 0) (str "remove it")
    (by decide) (by decide) (by decide) (by decide)
  rw [h]; decide

/-- C1: for every lifecycle run of the create path in which the three stages
complete, the outcome's `overall_success` (the spec's aggregate over the
returned per-stage flags) is true iff the initialize and the apply stage both
exited with status 0; the plan stage's result is universally quantified, so a
plan failure alone never flips it. -/
theorem create_overall_success_gates_on_init_and_apply
    (init_result plan_result apply_result : ProcResult) :
    ∃ o, run_terraform_commands (.completed init_result) (.completed plan_result)
        (.completed apply_result) = .ok o ∧
      (specOverallSuccess o = true ↔
        (init_result.returncode = 0 ∧ apply_result.returncode = 0)) := by
  refine ⟨_, rfl, ?_⟩
  simp [specOverallSuccess, run_terraform_commands]

/-- Witness for C1: with a failing plan stage between a successful initialize
and a successful apply, `overall_success` is still true. -/
theorem create_overall_success_witness :
    ∃ o, run_terraform_commands (.completed ⟨0, [], []⟩)
        (.completed ⟨1, [], str "plan failed"⟩) (.completed ⟨0, [], []⟩) = .ok o ∧
      specOverallSuccess o = true := by
  obtain ⟨o, ho, hiff⟩ :=
    create_overall_success_gates_on_init_and_apply ⟨0, [], []⟩
      ⟨1, [], str "plan failed"⟩ ⟨0, [], []⟩
  exact ⟨o, ho, hiff.mpr ⟨rfl, rfl⟩⟩

/-- Counterexample to C5 as stated: when the initialize stage times out, the
returned value is the single error dictionary — it is not an outcome carrying a
per-stage result for the timed-out stage. -/
theorem timeout_yields_no_per_stage_result :
    ¬ ∃ o, run_terraform_commands .timedOut
        (.completed ⟨0, [], []⟩) (.completed ⟨0, [], []⟩) = .ok o := by
  rintro ⟨o, h⟩
  simp [run_terraform_commands] at h

/-- C5 (amended): a lifecycle run in which some stage times out returns the
single terminal error outcome whose message is non-empty and references the
timeout; no per-stage results are reported. -/
theorem timeout_collapses_to_single_error (s1 s2 s3 : StageRun)
    (h : s1 = .timedOut ∨ s2 = .timedOut ∨ s3 = .timedOut) :
    run_terraform_commands s1 s2 s3 = .err (str "Terraform command timed out") ∧
      str "Terraform command timed out" ≠ [] ∧
      hasSub (str "timed out") (str "Terraform command timed out") = true := by
  refine ⟨?_, by decide, by decide⟩
  cases s1 <;> cases s2 <;> cases s3 <;> simp_all [run_terraform_commands]

/-- Witness for C5 (amended): a concrete run whose apply stage times out. -/
theorem timeout_collapses_to_single_error_witness :
    run_terraform_commands (.completed ⟨0, [], []⟩) (.completed ⟨0, [], []⟩) .timedOut
      = .err (str "Terraform command timed out") :=
  (timeout_collapses_to_single_error _ _ _ (Or.inr (Or.inr rfl))).1

/-- C8: the database port comes from the fixed engine table, matched on the
lower-cased engine string, and any engine outside the table falls back to port
3306 and engine version `"8.0"` (composition never fails on an unrecognized
engine); the two closed conjuncts exhibit the case-insensitive match. -/
theorem db_port_table_with_default (engine : List Char) :
    (lowerStr engine = str "mysql" → get_db_port engine = 3306) ∧
    (lowerStr engine = str "postgres" → get_db_port engine = 5432) ∧
    (lowerStr engine = str "mariadb" → get_db_port engine = 3306) ∧
    (lowerStr engine = str "oracle-ee" → get_db_port engine = 1521) ∧
    (lowerStr engine = str "sqlserver-ex" → get_db_port engine = 1433) ∧
    (lowerStr engine ∉ [str "mysql", str "postgres", str "mariadb",
        str "oracle-ee", str "sqlserver-ex"] →
      get_db_port engine = 3306 ∧ get_engine_version engine = str "8.0") ∧
    get_db_port (str "MySQL") = 3306 ∧ get_db_port (str "Oracle-EE") = 1521 := by
  refine ⟨fun h => ?_, fun h => ?_, fun h => ?_, fun h => ?_, fun h => ?_,
    fun h => ?_, by decide, by decide⟩ <;>
    simp only [get_db_port, get_engine_version, enginePorts, engineVersions, lookupAssoc, h] <;>
    simp_all <;> decide

/-- Witness for C8: a table engine written in mixed case resolves through the
table, and an unknown engine falls back to the defaults. -/
theorem db_port_table_with_default_witness :
    get_db_port (str "Postgres") = 5432 ∧
      (get_db_port (str "unicorn") = 3306 ∧ get_engine_version (str "unicorn") = str "8.0") :=
  ⟨(db_port_table_with_default (str "Postgres")).2.1 (by decide),
    (db_port_table_with_default (str "unicorn")).2.2.2.2.2.1 (by decide)⟩

/-- C9: the state inspector returns the not-found dictionary when the
directory is missing — with a result independent of any process invocation —
returns the captured error text on a non-zero exit status instead of raising,
and returns the raw output when the subcommand succeeds but its output does not
parse as structured data. -/
theorem state_inspector_error_handling {J : Type} (parseJson : List Char → Option J)
    (resource_type : List Char) (r r' : ProcResult) :
    (get_terraform_state parseJson false resource_type r
        = .errNotFound (str "No Terraform configuration found for " ++ resource_type) ∧
      get_terraform_state parseJson false resource_type r
        = get_terraform_state parseJson false resource_type r') ∧
    (r.returncode ≠ 0 →
      get_terraform_state parseJson true resource_type r
        = .errFailed (str "Failed to retrieve Terraform state") r.stderr) ∧
    (r.returncode = 0 → parseJson r.stdout = none →
      get_terraform_state parseJson true resource_type r
        = .okRaw resource_type r.stdout) := by
  refine ⟨⟨rfl, rfl⟩, fun h => ?_, fun h hp => ?_⟩ <;>
    simp [get_terraform_state, h]
  simp [hp]

/-- Witness for C9: a failing `show` invocation reports its stderr, and a
successful one with unparseable output reports the raw text. -/
theorem state_inspector_error_handling_witness :
    get_terraform_state (fun _ => (none : Option Unit)) true (str "ec2")
        ⟨1, [], str "boom"⟩
      = .errFailed (str "Failed to retrieve Terraform state") (str "boom") ∧
    get_terraform_state (fun _ => (none : Option Unit)) true (str "ec2")
        ⟨0, str "not json", []⟩
      = .okRaw (str "ec2") (str "not json") :=
  ⟨(state_inspector_error_handling (fun _ => (none : Option Unit)) (str "ec2")
      ⟨1, [], str "boom"⟩ ⟨1, [], str "boom"⟩).2.1 (by decide),
    (state_inspector_error_handling (fun _ => (none : Option Unit)) (str "ec2")
      ⟨0, str "not json", []⟩ ⟨0, str "not json", []⟩).2.2 rfl rfl⟩

/-- C10: every resource type outside `ec2`/`s3`/`rds` resolves — in the shared
directory mapping used by both the delete endpoint and the state endpoint — to
the EC2 directory `terraform/terraform_ec2`, and the delete endpoint then runs
the destroy stage there (rather than rejecting the request) whenever the
directory exists. -/
theorem unknown_resource_type_uses_ec2_dir (resource_type : List Char)
    (h1 : resource_type ≠ str "ec2") (h2 : resource_type ≠ str "s3")
    (h3 : resource_type ≠ str "rds") :
    tf_dir_of resource_type = str "terraform/terraform_ec2" ∧
    (∀ rid destroy, delete_resource resource_type rid true destroy
        = .ok resource_type rid destroy.stdout destroy.stderr (destroy.returncode == 0)) := by
  refine ⟨?_, fun rid destroy => rfl⟩
  simp only [tf_dir_of, tf_dir_mapping, lookupAssoc, h1, h2, h3, if_false, Option.getD]
  decide

/-- Witness for C10: the unrecognized resource type `lambda`. -/
theorem unknown_resource_type_uses_ec2_dir_witness :
    tf_dir_of (str "lambda") = str "terraform/terraform_ec2" ∧
      delete_resource (str "lambda") (str "my-fn") true ⟨0, str "destroyed", []⟩
        = .ok (str "lambda") (str "my-fn") (str "destroyed") [] true := by
  obtain ⟨hdir, hrun⟩ :=
    unknown_resource_type_uses_ec2_dir (str "lambda") (by decide) (by decide) (by decide)
  exact ⟨hdir, hrun (str "my-fn") ⟨0, str "destroyed", []⟩⟩

end MCPAws
